import Mathlib

/-!
Verification of the rapid-prototyper prompt lifecycle engine.

The definitions below are a shallow embedding of the TypeScript sources:
  apps/api/src/repositories/promptRepository.ts
  apps/api/src/repositories/promptEventRepository.ts
  apps/api/src/workers/codexWorker.ts
  apps/api/src/services/titleGenerator.ts
  apps/api/src/services/codexService.ts

JavaScript strings are modelled as Lean `String` with character-list
based helpers (`trimStr`, `takeStr`, ...), database rows as structures,
the prompts table as a `List Prompt`, and each fallible `await`ed
database or adapter call as an `Except String` result.  A fault plan
records, for each database call a worker transition makes, whether the
underlying insert/update succeeds; state is threaded explicitly so that
writes performed before a failure persist, as they do against a real
database without a surrounding transaction.
-/

namespace RapidProto

/-- Prompt lifecycle status, from types.ts: 'pending' | 'building' | 'ready' | 'failed'. -/
inductive PromptStatus
  | pending
  | building
  | ready
  | failed
deriving DecidableEq

/-- Sandbox metadata blob, from codexWorker.ts buildSandboxConfig. `compiledAt` is a clock value. -/
structure SandboxConfig where
  runtime : String
  allowedGlobals : List String
  compiledAt : Nat
deriving DecidableEq

/-- A row of the prompts table, from the Prompt interface in types.ts.
Timestamps are modelled as natural clock values. -/
structure Prompt where
  id : String
  user_id : String
  title : String
  prompt_text : String
  status : PromptStatus
  codex_task_id : Option String
  jsx_source : Option String
  compiled_js : Option String
  preview_slug : Option String
  render_error : Option String
  sandbox_config : Option SandboxConfig
  created_at : Nat
  updated_at : Nat
deriving DecidableEq

/-- Event severity level, from types.ts: 'info' | 'error'. -/
inductive EventLevel
  | info
  | error
deriving DecidableEq

/-- A row of the prompt_events table, from the PromptEvent interface in types.ts.
The structured context payload is modelled as a key/value list. -/
structure PromptEvent where
  prompt_id : String
  level : EventLevel
  message : String
  context : List (String × String)
  created_at : Nat
deriving DecidableEq

/-- JavaScript-style whitespace test for the characters the repository's inputs use. -/
def isJsWhitespace (c : Char) : Bool :=
  c = ' ' || c = '\t' || c = '\n' || c = '\r'

/-- Model of JavaScript String.prototype.slice(0, n) / first-n-characters. -/
def takeStr (s : String) (n : Nat) : String :=
  String.mk (s.data.take n)

/-- Model of JavaScript String.prototype.trim. -/
def trimStr (s : String) : String :=
  String.mk (((s.data.dropWhile isJsWhitespace).reverse.dropWhile isJsWhitespace).reverse)

/-- Model of JavaScript String.prototype.trimEnd. -/
def trimEndStr (s : String) : String :=
  String.mk ((s.data.reverse.dropWhile isJsWhitespace).reverse)

/-- ASCII alphanumeric test: the character class [a-z0-9] with the /i flag,
from the regex in codexWorker.ts buildPreviewSlug. -/
def isAsciiAlphanum (c : Char) : Bool :=
  ('a' ≤ c && c ≤ 'z') || ('A' ≤ c && c ≤ 'Z') || ('0' ≤ c && c ≤ '9')

/-- Parameters of createPrompt, from promptRepository.ts CreatePromptParams.
Optional fields are `Option`s; `statusParam` models `status?`, `none` when omitted. -/
structure CreatePromptParams where
  userId : String
  promptText : String
  title : String
  statusParam : Option PromptStatus
  codexTaskId : Option String
  previewSlug : Option String
deriving DecidableEq

/-- Embedding of promptRepository.ts createPrompt: the row inserted for the given
parameters, with `status: params.status ?? 'pending'`, nullable columns defaulted
to null, and both timestamps set at insertion. -/
def createPrompt (params : CreatePromptParams) (id : String) (now : Nat) : Prompt :=
  { id := id
    user_id := params.userId
    title := params.title
    prompt_text := params.promptText
    status := params.statusParam.getD PromptStatus.pending
    codex_task_id := params.codexTaskId
    jsx_source := none
    compiled_js := none
    preview_slug := params.previewSlug
    render_error := none
    sandbox_config := none
    created_at := now
    updated_at := now }

/-- Row effect of promptRepository.ts markPromptBuilding: sets status and updated_at,
and copies the handle into codex_task_id only when the argument is present and
truthy (a JavaScript `if (codexTaskId)` guard, false for undefined and ""). -/
def markPromptBuildingRow (codexTaskId : Option String) (now : Nat) (p : Prompt) : Prompt :=
  let p1 := { p with status := PromptStatus.building, updated_at := now }
  match codexTaskId with
  | some t => if t = "" then p1 else { p1 with codex_task_id := some t }
  | none => p1

/-- Row effect of promptRepository.ts markPromptFailed: sets status failed,
stores the error message truncated to 2000 characters, bumps updated_at. -/
def markPromptFailedRow (errorMessage : String) (now : Nat) (p : Prompt) : Prompt :=
  { p with
    status := PromptStatus.failed
    render_error := some (takeStr errorMessage 2000)
    updated_at := now }

/-- Build artifacts passed to savePromptBuildResult, from promptRepository.ts. -/
structure BuildArtifacts where
  jsxSource : String
  compiledJs : String
  previewSlug : String
  sandboxConfig : SandboxConfig
deriving DecidableEq

/-- Row effect of promptRepository.ts savePromptBuildResult: one update setting
status ready, the generated source, compiled artifact, preview slug and sandbox
config, clearing render_error and bumping updated_at. -/
def savePromptBuildResultRow (a : BuildArtifacts) (now : Nat) (p : Prompt) : Prompt :=
  { p with
    status := PromptStatus.ready
    jsx_source := some a.jsxSource
    compiled_js := some a.compiledJs
    preview_slug := some a.previewSlug
    sandbox_config := some a.sandboxConfig
    render_error := none
    updated_at := now }

/-- A knex `where({id}).update(...)`: apply a row update to every row whose id matches. -/
def updateWhere (id : String) (f : Prompt → Prompt) : List Prompt → List Prompt :=
  List.map (fun p => if p.id = id then f p else p)

/-- Table-level markPromptBuilding. -/
def markPromptBuilding (promptId : String) (codexTaskId : Option String) (now : Nat)
    (table : List Prompt) : List Prompt :=
  updateWhere promptId (markPromptBuildingRow codexTaskId now) table

/-- Table-level markPromptFailed. -/
def markPromptFailed (promptId : String) (errorMessage : String) (now : Nat)
    (table : List Prompt) : List Prompt :=
  updateWhere promptId (markPromptFailedRow errorMessage now) table

/-- Table-level savePromptBuildResult. -/
def savePromptBuildResult (promptId : String) (a : BuildArtifacts) (now : Nat)
    (table : List Prompt) : List Prompt :=
  updateWhere promptId (savePromptBuildResultRow a now) table

/-- Status filter of promptRepository.ts findPromptsAwaitingBuild:
whereIn('status', ['pending', 'building']). -/
def awaitingStatus : PromptStatus → Bool
  | PromptStatus.pending => true
  | PromptStatus.building => true
  | _ => false

/-- Insertion step of a sort by updated_at ascending (orderBy('updated_at', 'asc')). -/
def insertByUpdated (p : Prompt) : List Prompt → List Prompt
  | [] => [p]
  | q :: qs => if p.updated_at < q.updated_at then p :: q :: qs else q :: insertByUpdated p qs

/-- Sort a list of prompts by updated_at ascending. -/
def sortByUpdatedAsc (l : List Prompt) : List Prompt :=
  l.foldr insertByUpdated []

/-- Embedding of promptRepository.ts findPromptsAwaitingBuild: rows whose status is
pending or building, ordered oldest-updated-first, limited to `limit`. -/
def findPromptsAwaitingBuild (limit : Nat) (table : List Prompt) : List Prompt :=
  (sortByUpdatedAsc (table.filter (fun p => awaitingStatus p.status))).take limit

/-- First row of the table with the given id (a `where({id}).first()` read, used
to observe the table in the theorems below). -/
def findRow (i : String) : List Prompt → Option Prompt
  | [] => none
  | p :: ps => if p.id = i then some p else findRow i ps

/-- Status of the row with the given id, when present. -/
def statusOf (i : String) (table : List Prompt) : Option PromptStatus :=
  (findRow i table).map Prompt.status

/-- Embedding of promptEventRepository.ts recordPromptEvent: a single
`await db('prompt_events').insert(...)` with no surrounding try/catch — the
function appends the row when the insert succeeds and propagates the insert
failure otherwise.  `insertOk` is the fault-injection flag for the insert. -/
def recordPromptEvent (promptId : String) (level : EventLevel) (message : String)
    (context : List (String × String)) (now : Nat) (insertOk : Bool)
    (log : List PromptEvent) : Except String (List PromptEvent) :=
  if insertOk then
    Except.ok (log ++ [{ prompt_id := promptId, level := level, message := message,
                         context := context, created_at := now }])
  else
    Except.error "prompt_events insert failed"

/-- Render a status the way the worker puts it into event context ({ status: prompt.status }). -/
def statusText : PromptStatus → String
  | PromptStatus.pending => "pending"
  | PromptStatus.building => "building"
  | PromptStatus.ready => "ready"
  | PromptStatus.failed => "failed"

/-- Embedding of codexWorker.ts buildPreviewSlug:
`promptId.replace(/[^a-z0-9]/gi, '').slice(0, 12)` with the falsy-string
fallback `compact || promptId.slice(0, 8)`, prefixed by 'preview-'. -/
def buildPreviewSlug (promptId : String) : String :=
  let compact := String.mk ((promptId.data.filter isAsciiAlphanum).take 12)
  if compact = "" then "preview-" ++ takeStr promptId 8 else "preview-" ++ compact

/-- Embedding of codexWorker.ts buildSandboxConfig; `compiledAt` takes the current clock. -/
def buildSandboxConfig (now : Nat) : SandboxConfig :=
  { runtime := "react18"
    allowedGlobals := ["React", "useState", "useEffect"]
    compiledAt := now }

/-- Result of a successful runPromptThroughCodex call: the resolved thread id and extracted source. -/
structure GenOut where
  threadId : String
  jsx : String
deriving DecidableEq

/-- The two external adapters as the worker sees them: the generation call
(runPromptThroughCodex, applied to the prompt text and stored handle) and the
compilation call (compileJsxToSandboxedJs).  A thrown error is an `Except.error`
carrying the error message. -/
structure Adapters where
  generate : String → Option String → Except String GenOut
  compile : String → Except String String

/-- Fault-injection plan for the database calls one per-prompt transition makes:
`true` means the underlying insert/update succeeds, `false` that it throws. -/
structure FaultPlan where
  eventProcessingOk : Bool
  markBuildingOk : Bool
  markHandleOk : Bool
  eventJsxOk : Bool
  saveResultOk : Bool
  eventReadyOk : Bool
  markFailedOk : Bool
  eventFailedOk : Bool
deriving DecidableEq

/-- The fault plan in which every database call succeeds. -/
def allOk : FaultPlan :=
  { eventProcessingOk := true
    markBuildingOk := true
    markHandleOk := true
    eventJsxOk := true
    saveResultOk := true
    eventReadyOk := true
    markFailedOk := true
    eventFailedOk := true }

/-- Worker-visible state: the prompts table, the prompt_events table, and a
clock supplying the `db.fn.now()` / insertion timestamps. -/
structure WorkerState where
  table : List Prompt
  events : List PromptEvent
  clock : Nat
deriving DecidableEq

/-- Result of one awaited step: the state after the step (writes made before a
failure persist) and either a value or the thrown error. -/
abbrev WRes (α : Type) := WorkerState × Except String α

/-- Sequencing of awaited steps: stop at the first thrown error, keeping the
state reached so far. -/
def wbind {α β : Type} (r : WRes α) (f : α → WorkerState → WRes β) : WRes β :=
  match r with
  | (st, Except.ok a) => f a st
  | (st, Except.error e) => (st, Except.error e)

/-- One `await recordPromptEvent(...)` inside the worker, with its fault flag. -/
def recordEventStep (ok : Bool) (promptId : String) (level : EventLevel) (message : String)
    (context : List (String × String)) (st : WorkerState) : WRes Unit :=
  match recordPromptEvent promptId level message context st.clock ok st.events with
  | Except.ok log => ({ st with events := log, clock := st.clock + 1 }, Except.ok ())
  | Except.error e => (st, Except.error e)

/-- One `await markPromptBuilding(...)` inside the worker, with its fault flag. -/
def markBuildingStep (ok : Bool) (promptId : String) (codexTaskId : Option String)
    (st : WorkerState) : WRes Unit :=
  if ok then
    ({ st with table := markPromptBuilding promptId codexTaskId st.clock st.table,
               clock := st.clock + 1 }, Except.ok ())
  else (st, Except.error "update prompts set status building failed")

/-- One `await markPromptFailed(...)` inside the worker, with its fault flag. -/
def markFailedStep (ok : Bool) (promptId : String) (message : String)
    (st : WorkerState) : WRes Unit :=
  if ok then
    ({ st with table := markPromptFailed promptId message st.clock st.table,
               clock := st.clock + 1 }, Except.ok ())
  else (st, Except.error "update prompts set status failed failed")

/-- One `await savePromptBuildResult(...)` inside the worker, with its fault flag. -/
def saveResultStep (ok : Bool) (promptId : String) (a : BuildArtifacts)
    (st : WorkerState) : WRes Unit :=
  if ok then
    ({ st with table := savePromptBuildResult promptId a st.clock st.table,
               clock := st.clock + 1 }, Except.ok ())
  else (st, Except.error "update prompts set build result failed")

/-- The try-block of codexWorker.ts processPrompt (lines 45-77): mark building,
call generation, persist a changed handle, record the JSX event, compile,
persist the build result, record the ready event.  `prompt` is the row as
fetched by the tick's eligibility query. -/
def tryBody (ad : Adapters) (fp : FaultPlan) (prompt : Prompt) (st : WorkerState) : WRes Unit :=
  wbind (markBuildingStep fp.markBuildingOk prompt.id none st) (fun _ st =>
  wbind (st, ad.generate prompt.prompt_text prompt.codex_task_id) (fun g st =>
  wbind (if prompt.codex_task_id = some g.threadId then (st, Except.ok ())
         else markBuildingStep fp.markHandleOk prompt.id (some g.threadId) st) (fun _ st =>
  wbind (recordEventStep fp.eventJsxOk prompt.id EventLevel.info
          "Codex worker: JSX received" [("threadId", g.threadId)] st) (fun _ st =>
  wbind (st, ad.compile g.jsx) (fun compiledJs st =>
    let previewSlug := prompt.preview_slug.getD (buildPreviewSlug prompt.id)
    let sandboxConfig := buildSandboxConfig st.clock
    wbind (saveResultStep fp.saveResultOk prompt.id
            { jsxSource := g.jsx, compiledJs := compiledJs,
              previewSlug := previewSlug, sandboxConfig := sandboxConfig } st) (fun _ st =>
    recordEventStep fp.eventReadyOk prompt.id EventLevel.info
      "Codex worker: prompt ready" [("previewSlug", previewSlug)] st))))))

/-- The catch-block of codexWorker.ts processPrompt (lines 78-85): mark the
prompt failed with the caught message and record an error event.  Both awaited
calls are unguarded, so their own failures propagate out of processPrompt. -/
def catchBlock (fp : FaultPlan) (prompt : Prompt) (message : String)
    (st : WorkerState) : WRes Unit :=
  wbind (markFailedStep fp.markFailedOk prompt.id message st) (fun _ st =>
  recordEventStep fp.eventFailedOk prompt.id EventLevel.error
    "Codex worker: build failed" [("error", message)] st)

/-- Embedding of codexWorker.ts processPrompt: the initial processing event is
recorded before the try-block (so its failure propagates), then the try-block
runs with every error routed through the catch-block. -/
def processPrompt (ad : Adapters) (fp : FaultPlan) (prompt : Prompt)
    (st : WorkerState) : WRes Unit :=
  wbind (recordEventStep fp.eventProcessingOk prompt.id EventLevel.info
          "Codex worker: processing prompt" [("status", statusText prompt.status)] st)
    (fun _ st =>
      match tryBody ad fp prompt st with
      | (st, Except.ok _) => (st, Except.ok ())
      | (st, Except.error e) => catchBlock fp prompt e st)

/-- The `for (const prompt of prompts) { await processPrompt(prompt); }` loop of
codexWorker.ts tick: prompts are processed strictly sequentially and an error
thrown out of processPrompt aborts the remainder of the batch.  `fps` gives the
fault plan for each prompt's transition, keyed by prompt id. -/
def processBatch (ad : Adapters) (fps : String → FaultPlan) :
    List Prompt → WorkerState → WRes Unit
  | [], st => (st, Except.ok ())
  | p :: ps, st =>
    match processPrompt ad (fps p.id) p st with
    | (st', Except.ok _) => processBatch ad fps ps st'
    | (st', Except.error e) => (st', Except.error e)

/-- Embedding of codexWorker.ts tick: when the adapter is configured, fetch the
eligible batch once and process it sequentially. -/
def tick (configured : Bool) (ad : Adapters) (fps : String → FaultPlan)
    (batchSize : Nat) (st : WorkerState) : WRes Unit :=
  if configured then processBatch ad fps (findPromptsAwaitingBuild batchSize st.table) st
  else (st, Except.ok ())

/-- MAX_TITLE_LENGTH from titleGenerator.ts. -/
def MAX_TITLE_LENGTH : Nat := 48

/-- Embedding of titleGenerator.ts fallbackTitle: trim, constant placeholder on
empty, unchanged when within the length cap, else truncate to cap minus three,
trim trailing whitespace, and append the three-dot ellipsis. -/
def fallbackTitle (promptText : String) : String :=
  let normalized := trimStr promptText
  if normalized = "" then "Untitled prompt"
  else if normalized.length ≤ MAX_TITLE_LENGTH then normalized
  else trimEndStr (takeStr normalized (MAX_TITLE_LENGTH - 3)) ++ "..."

/-- The fixed placeholder request substituted by codexService.ts buildPrompt
when trimmed user input is empty. -/
def placeholderRequest : String := "Build a minimal placeholder component."

/-- Embedding of codexService.ts buildPrompt, the prompt sent to the external
service by runPromptThroughCodex: the trimmed system prompt, a blank line,
the 'User prompt:' header, and the trimmed user prompt or the placeholder
when the trimmed user prompt is empty. -/
def buildPrompt (codexSystemPrompt : String) (userPrompt : String) : String :=
  let trimmed := trimStr userPrompt
  let normalizedUserPrompt :=
    if trimmed.length > 0 then trimmed else placeholderRequest
  trimStr codexSystemPrompt ++ "\n\nUser prompt:\n" ++ normalizedUserPrompt

/-- Rows producible by the record-store mutations as the system uses them:
intake creation (createPrompt called without a status, routes/prompts.ts) and
the three worker-driven updates. -/
inductive ReachableRow : Prompt → Prop
  | created (params : CreatePromptParams) (id : String) (now : Nat)
      (h : params.statusParam = none) : ReachableRow (createPrompt params id now)
  | markedBuilding (c : Option String) (now : Nat) (p : Prompt) :
      ReachableRow p → ReachableRow (markPromptBuildingRow c now p)
  | markedFailed (msg : String) (now : Nat) (p : Prompt) :
      ReachableRow p → ReachableRow (markPromptFailedRow msg now p)
  | savedResult (a : BuildArtifacts) (now : Nat) (p : Prompt) :
      ReachableRow p → ReachableRow (savePromptBuildResultRow a now p)

/-- A freshly created pending prompt used by the concrete scenarios below. -/
def basePrompt : Prompt :=
  { id := "p-1"
    user_id := "u-1"
    title := "First"
    prompt_text := "make a button"
    status := PromptStatus.pending
    codex_task_id := none
    jsx_source := none
    compiled_js := none
    preview_slug := none
    render_error := none
    sandbox_config := none
    created_at := 0
    updated_at := 0 }

/-- A second pending prompt, updated later than basePrompt. -/
def secondPrompt : Prompt :=
  { basePrompt with id := "p-2", prompt_text := "make a list", updated_at := 1 }

/-- A prompt already in the failed state. -/
def failedPrompt : Prompt :=
  { basePrompt with id := "p-3", status := PromptStatus.failed, render_error := some "boom" }

/-- Worker state holding the two pending prompts. -/
def demoState : WorkerState :=
  { table := [basePrompt, secondPrompt], events := [], clock := 10 }

/-- Adapters whose generation call throws exactly on basePrompt's text and
succeeds on any other text, with compilation always succeeding. -/
def demoAdapters : Adapters :=
  { generate := fun text _ =>
      if text = "make a button" then Except.error "gen exploded"
      else Except.ok { threadId := "th-1", jsx := "const A = 1" }
    compile := fun src => Except.ok ("compiled:" ++ src) }

/-- Adapters whose generation always succeeds and compilation always throws. -/
def compileFailAdapters : Adapters :=
  { generate := fun _ _ => Except.ok { threadId := "th-9", jsx := "const B = 2" }
    compile := fun _ => Except.error "babel exploded" }

/-- Adapters in which both calls always succeed. -/
def okAdapters : Adapters :=
  { generate := fun _ _ => Except.ok { threadId := "th-2", jsx := "const C = 3" }
    compile := fun src => Except.ok ("js:" ++ src) }

/-- Fault plan in which the initial event append throws. -/
def eventFailPlan : FaultPlan := { allOk with eventProcessingOk := false }

/-- Fault plan in which the markPromptBuilding update throws. -/
def storeFailPlan : FaultPlan := { allOk with markBuildingOk := false }

/-- Per-prompt fault plans: basePrompt's transition hits the failing
markPromptBuilding update, every other prompt sees a healthy store. -/
def c4Faults : String → FaultPlan := fun i => if i = "p-1" then storeFailPlan else allOk

/-- Intake parameters as routes/prompts.ts passes them (no status override). -/
def demoParams : CreatePromptParams :=
  { userId := "u-1"
    promptText := "make a card"
    title := "Card"
    statusParam := none
    codexTaskId := none
    previewSlug := none }

/-- Concrete build artifacts. -/
def demoArtifacts : BuildArtifacts :=
  { jsxSource := "const D = 4"
    compiledJs := "js:const D = 4"
    previewSlug := "preview-p9"
    sandboxConfig := buildSandboxConfig 3 }

/-- A row reached by creating a prompt and saving a successful build result. -/
def demoReadyRow : Prompt :=
  savePromptBuildResultRow demoArtifacts 2 (createPrompt demoParams "p-9" 1)

/-- A 60-character input for exercising the title truncation branch. -/
def longTitleInput : String := String.mk (List.replicate 60 'a')

deriving instance DecidableEq for Except

theorem strAppend_data (a b : String) : (a ++ b).data = a.data ++ b.data := by
  cases a
  cases b
  rfl

theorem mk_eq_empty_iff (l : List Char) : String.mk l = "" ↔ l = [] := by
  constructor
  · intro h
    have h2 := congrArg String.data h
    simpa using h2
  · intro h
    rw [h]

theorem takeStr_length_le (s : String) (n : Nat) : (takeStr s n).length ≤ n := by
  show (s.data.take n).length ≤ n
  exact List.length_take_le n s.data

theorem trimEndStr_length_le (s : String) : (trimEndStr s).length ≤ s.length := by
  show ((s.data.reverse.dropWhile isJsWhitespace).reverse).length ≤ s.data.length
  calc ((s.data.reverse.dropWhile isJsWhitespace).reverse).length
      = (s.data.reverse.dropWhile isJsWhitespace).length := List.length_reverse _
    _ ≤ s.data.reverse.length := (List.dropWhile_sublist _).length_le
    _ = s.data.length := List.length_reverse _

/-- C7: buildPreviewSlug is a pure, deterministic function of the prompt id
returning the literal 'preview-' followed by the first 12 characters of the id
with non-alphanumeric characters stripped, or, when the stripped id is empty,
by the first 8 raw characters of the id. -/
theorem buildPreviewSlug_characterization : ∀ id : String,
    buildPreviewSlug id =
      (if id.data.filter isAsciiAlphanum = [] then "preview-" ++ takeStr id 8
       else "preview-" ++ String.mk ((id.data.filter isAsciiAlphanum).take 12)) ∧
    buildPreviewSlug id = buildPreviewSlug id := by
  intro id
  refine ⟨?_, rfl⟩
  by_cases h : id.data.filter isAsciiAlphanum = []
  · simp [buildPreviewSlug, h, mk_eq_empty_iff]
  · have htake : (id.data.filter isAsciiAlphanum).take 12 ≠ [] := by
      cases hl : id.data.filter isAsciiAlphanum with
      | nil => exact absurd hl h
      | cons a l => simp
    simp [buildPreviewSlug, h, mk_eq_empty_iff, htake]

/-- C8: fallbackTitle is pure and total; the empty trimmed input maps to the
fixed placeholder, a trimmed input within 48 characters is returned unchanged,
and a longer trimmed input yields at most 48 characters ending in the ellipsis. -/
theorem fallbackTitle_characterization : ∀ s : String,
    (trimStr s = "" → fallbackTitle s = "Untitled prompt") ∧
    (trimStr s ≠ "" → (trimStr s).length ≤ 48 → fallbackTitle s = trimStr s) ∧
    (49 ≤ (trimStr s).length →
      (fallbackTitle s).length ≤ 48 ∧ ∃ pre, fallbackTitle s = pre ++ "...") := by
  intro s
  refine ⟨?_, ?_, ?_⟩
  · intro h
    simp [fallbackTitle, h]
  · intro h1 h2
    simp [fallbackTitle, h1, MAX_TITLE_LENGTH, h2]
  · intro h
    have hne : trimStr s ≠ "" := by
      intro heq
      rw [heq] at h
      simp at h
    have hgt : ¬ (trimStr s).length ≤ MAX_TITLE_LENGTH := by
      simp only [MAX_TITLE_LENGTH]
      omega
    have hform : fallbackTitle s =
        trimEndStr (takeStr (trimStr s) (MAX_TITLE_LENGTH - 3)) ++ "..." := by
      simp [fallbackTitle, hne, hgt]
    refine ⟨?_, ⟨_, hform⟩⟩
    rw [hform, String.length_append]
    have hx : (trimEndStr (takeStr (trimStr s) (MAX_TITLE_LENGTH - 3))).length ≤ 45 := by
      calc (trimEndStr (takeStr (trimStr s) (MAX_TITLE_LENGTH - 3))).length
          ≤ (takeStr (trimStr s) (MAX_TITLE_LENGTH - 3)).length := trimEndStr_length_le _
        _ ≤ MAX_TITLE_LENGTH - 3 := takeStr_length_le _ _
        _ ≤ 45 := by simp [MAX_TITLE_LENGTH]
    have hdots : ("..." : String).length = 3 := by decide
    omega

/-- C8 witness: concrete evaluations of the placeholder and truncation branches. -/
theorem fallbackTitle_characterization_witness :
    fallbackTitle "" = "Untitled prompt" ∧ (fallbackTitle longTitleInput).length ≤ 48 :=
  ⟨(fallbackTitle_characterization "").1 rfl,
   ((fallbackTitle_characterization longTitleInput).2.2 (by decide)).1⟩

/-- C9: markPromptBuilding called without a handle updates only the status and
updated_at columns; the stored handle and every other field of each prompt row
are unchanged, and rows with other ids are untouched. -/
theorem markPromptBuilding_frame : ∀ (p : Prompt) (now : Nat),
    markPromptBuildingRow none now p =
      { p with status := PromptStatus.building, updated_at := now } ∧
    (markPromptBuildingRow none now p).codex_task_id = p.codex_task_id ∧
    ∀ (pid : String) (table : List Prompt),
      markPromptBuilding pid none now table =
        table.map (fun q =>
          if q.id = pid then { q with status := PromptStatus.building, updated_at := now }
          else q) := by
  intro p now
  exact ⟨rfl, rfl, fun pid table => rfl⟩

/-- C10: buildPrompt substitutes the fixed placeholder request when the trimmed
user prompt is empty, and the user-prompt portion it forwards is never empty. -/
theorem buildPrompt_placeholder : ∀ (sys text : String),
    (trimStr text = "" →
      buildPrompt sys text = trimStr sys ++ "\n\nUser prompt:\n" ++ placeholderRequest) ∧
    ∃ u, buildPrompt sys text = trimStr sys ++ "\n\nUser prompt:\n" ++ u ∧ u ≠ "" := by
  intro sys text
  constructor
  · intro h
    have hlen : ¬ (trimStr text).length > 0 := by
      rw [h]
      decide
    simp [buildPrompt, hlen]
  · by_cases h : (trimStr text).length > 0
    · refine ⟨trimStr text, by simp [buildPrompt, h], ?_⟩
      intro heq
      rw [heq] at h
      simp at h
    · exact ⟨placeholderRequest, by simp [buildPrompt, h], by decide⟩

/-- C10 witness: a whitespace-only user prompt is replaced by the placeholder. -/
theorem buildPrompt_placeholder_witness :
    buildPrompt "SYS" "   " = trimStr "SYS" ++ "\n\nUser prompt:\n" ++ placeholderRequest :=
  (buildPrompt_placeholder "SYS" "   ").1 (by decide)

theorem mem_insertByUpdated (x p : Prompt) (l : List Prompt) :
    x ∈ insertByUpdated p l ↔ x = p ∨ x ∈ l := by
  induction l with
  | nil => simp [insertByUpdated]
  | cons q qs ih =>
    by_cases h : p.updated_at < q.updated_at
    · simp [insertByUpdated, h]
    · simp only [insertByUpdated, h, if_false, List.mem_cons, ih]
      tauto

theorem mem_sortByUpdatedAsc (x : Prompt) (l : List Prompt) :
    x ∈ sortByUpdatedAsc l ↔ x ∈ l := by
  induction l with
  | nil => simp [sortByUpdatedAsc]
  | cons q qs ih =>
    show x ∈ insertByUpdated q (sortByUpdatedAsc qs) ↔ _
    rw [mem_insertByUpdated]
    simp [ih]

theorem mem_table_of_eligible (p : Prompt) (n : Nat) (t : List Prompt)
    (h : p ∈ findPromptsAwaitingBuild n t) : p ∈ t := by
  have h1 : p ∈ sortByUpdatedAsc (t.filter (fun q => awaitingStatus q.status)) :=
    List.take_subset _ _ h
  have h2 : p ∈ t.filter (fun q => awaitingStatus q.status) :=
    (mem_sortByUpdatedAsc p _).mp h1
  exact (List.mem_filter.mp h2).1

theorem awaitingStatus_of_eligible (p : Prompt) (n : Nat) (t : List Prompt)
    (h : p ∈ findPromptsAwaitingBuild n t) : awaitingStatus p.status = true := by
  have h1 : p ∈ sortByUpdatedAsc (t.filter (fun q => awaitingStatus q.status)) :=
    List.take_subset _ _ h
  have h2 : p ∈ t.filter (fun q => awaitingStatus q.status) :=
    (mem_sortByUpdatedAsc p _).mp h1
  exact (List.mem_filter.mp h2).2

/-- C1 counterexample: a prompt with status failed is not in the eligible set
returned by findPromptsAwaitingBuild, even when it is the only row. -/
theorem failed_prompt_not_eligible_counterexample :
    failedPrompt ∉ findPromptsAwaitingBuild 5 [failedPrompt] ∧
    findPromptsAwaitingBuild 5 [failedPrompt] = [] := by decide

/-- C1 amended: the eligibility query returns only prompts whose status is
pending or building; a failed prompt is never re-selected by it. -/
theorem eligible_only_pending_or_building : ∀ (limit : Nat) (table : List Prompt) (p : Prompt),
    p ∈ findPromptsAwaitingBuild limit table →
    p.status = PromptStatus.pending ∨ p.status = PromptStatus.building := by
  intro limit table p hp
  have h3 := awaitingStatus_of_eligible p limit table hp
  cases hst : p.status
  · exact Or.inl rfl
  · exact Or.inr rfl
  · rw [hst] at h3
    exact absurd h3 (by decide)
  · rw [hst] at h3
    exact absurd h3 (by decide)

/-- C1 amended witness: the pending basePrompt is eligible and classified. -/
theorem eligible_only_pending_or_building_witness :
    basePrompt.status = PromptStatus.pending ∨ basePrompt.status = PromptStatus.building :=
  eligible_only_pending_or_building 5 [basePrompt] basePrompt (by decide)

theorem status_markPromptBuildingRow (c : Option String) (now : Nat) (p : Prompt) :
    (markPromptBuildingRow c now p).status = PromptStatus.building := by
  cases c with
  | none => rfl
  | some t =>
    by_cases h : t = "" <;> simp [markPromptBuildingRow, h]

/-- C2: any prompt row reachable through the system's record-store mutations
satisfies the invariant that status ready implies a non-null compiled artifact
and a null failure reason. -/
theorem ready_implies_artifact_nonnull : ∀ p : Prompt, ReachableRow p →
    p.status = PromptStatus.ready → p.compiled_js ≠ none ∧ p.render_error = none := by
  intro p hr
  induction hr with
  | created params id now h =>
    intro hs
    exfalso
    simp [createPrompt, h] at hs
  | markedBuilding c now p hp ih =>
    intro hs
    exfalso
    rw [status_markPromptBuildingRow] at hs
    exact absurd hs (by decide)
  | markedFailed msg now p hp ih =>
    intro hs
    exact absurd hs (by simp [markPromptFailedRow])
  | savedResult a now p hp ih =>
    intro hs
    exact ⟨by simp [savePromptBuildResultRow], rfl⟩

/-- C2 witness: the invariant evaluated on a concrete reachable ready row. -/
theorem ready_implies_artifact_nonnull_witness :
    demoReadyRow.compiled_js ≠ none ∧ demoReadyRow.render_error = none :=
  ready_implies_artifact_nonnull demoReadyRow
    (ReachableRow.savedResult demoArtifacts 2 (createPrompt demoParams "p-9" 1)
      (ReachableRow.created demoParams "p-9" 1 rfl)) rfl

theorem id_markPromptBuildingRow (c : Option String) (now : Nat) (p : Prompt) :
    (markPromptBuildingRow c now p).id = p.id := by
  cases c with
  | none => rfl
  | some t => by_cases h : t = "" <;> simp [markPromptBuildingRow, h]

theorem id_markPromptFailedRow (e : String) (now : Nat) (p : Prompt) :
    (markPromptFailedRow e now p).id = p.id := rfl

theorem id_savePromptBuildResultRow (a : BuildArtifacts) (now : Nat) (p : Prompt) :
    (savePromptBuildResultRow a now p).id = p.id := rfl

theorem status_markPromptFailedRow (e : String) (now : Nat) (p : Prompt) :
    (markPromptFailedRow e now p).status = PromptStatus.failed := rfl

theorem status_savePromptBuildResultRow (a : BuildArtifacts) (now : Nat) (p : Prompt) :
    (savePromptBuildResultRow a now p).status = PromptStatus.ready := rfl

theorem jsx_source_markPromptBuildingRow (c : Option String) (now : Nat) (p : Prompt) :
    (markPromptBuildingRow c now p).jsx_source = p.jsx_source := by
  cases c with
  | none => rfl
  | some t => by_cases h : t = "" <;> simp [markPromptBuildingRow, h]

theorem jsx_source_markPromptFailedRow (e : String) (now : Nat) (p : Prompt) :
    (markPromptFailedRow e now p).jsx_source = p.jsx_source := rfl

theorem codex_task_id_markPromptFailedRow (e : String) (now : Nat) (p : Prompt) :
    (markPromptFailedRow e now p).codex_task_id = p.codex_task_id := rfl

theorem codex_task_id_markPromptBuildingRow_some (t : String) (now : Nat) (p : Prompt)
    (h : t ≠ "") : (markPromptBuildingRow (some t) now p).codex_task_id = some t := by
  simp [markPromptBuildingRow, h]

theorem render_error_markPromptFailedRow (e : String) (now : Nat) (p : Prompt) :
    (markPromptFailedRow e now p).render_error = some (takeStr e 2000) := rfl

theorem findRow_updateWhere (i j : String) (f : Prompt → Prompt) (t : List Prompt)
    (hf : ∀ q, (f q).id = q.id) :
    findRow i (updateWhere j f t) = if i = j then (findRow i t).map f else findRow i t := by
  induction t with
  | nil => by_cases hij : i = j <;> simp [findRow, updateWhere, hij]
  | cons q qs ih =>
    simp only [updateWhere, List.map_cons] at ih ⊢
    by_cases hq : q.id = j
    · by_cases hij : i = j
      · subst hij
        simp [findRow, hq, hf, ih]
      · have hji : ¬ (j = i) := fun h => hij h.symm
        simp [findRow, hq, hf, hij, hji, ih]
    · by_cases hij : i = j
      · subst hij
        have hqi : ¬ (q.id = i) := hq
        simp [findRow, hq, hqi, ih]
      · by_cases hqi : q.id = i
        · simp [findRow, hq, hqi, hij, ih]
        · simp [findRow, hq, hqi, hij, ih]

theorem statusOf_updateWhere (i j : String) (f : Prompt → Prompt) (s : PromptStatus)
    (t : List Prompt) (hf : ∀ q, (f q).id = q.id) (hs : ∀ q, (f q).status = s) :
    statusOf i (updateWhere j f t) =
      if i = j then (statusOf i t).map (fun _ => s) else statusOf i t := by
  unfold statusOf
  rw [findRow_updateWhere i j f t hf]
  by_cases hij : i = j
  · simp only [hij, if_pos rfl]
    cases findRow j t <;> simp [hs]
  · simp [hij]

theorem statusOf_markPromptBuilding (i j : String) (c : Option String) (now : Nat)
    (t : List Prompt) :
    statusOf i (markPromptBuilding j c now t) =
      if i = j then (statusOf i t).map (fun _ => PromptStatus.building) else statusOf i t :=
  statusOf_updateWhere i j _ _ t (fun q => id_markPromptBuildingRow c now q)
    (fun q => status_markPromptBuildingRow c now q)

theorem statusOf_markPromptFailed (i j : String) (e : String) (now : Nat) (t : List Prompt) :
    statusOf i (markPromptFailed j e now t) =
      if i = j then (statusOf i t).map (fun _ => PromptStatus.failed) else statusOf i t :=
  statusOf_updateWhere i j _ _ t (fun q => id_markPromptFailedRow e now q)
    (fun q => status_markPromptFailedRow e now q)

theorem statusOf_savePromptBuildResult (i j : String) (a : BuildArtifacts) (now : Nat)
    (t : List Prompt) :
    statusOf i (savePromptBuildResult j a now t) =
      if i = j then (statusOf i t).map (fun _ => PromptStatus.ready) else statusOf i t :=
  statusOf_updateWhere i j _ _ t (fun q => id_savePromptBuildResultRow a now q)
    (fun q => status_savePromptBuildResultRow a now q)

theorem findRow_exists_of_mem (p : Prompt) (t : List Prompt) (h : p ∈ t) :
    ∃ q, findRow p.id t = some q := by
  induction t with
  | nil => cases h
  | cons a l ih =>
    by_cases ha : a.id = p.id
    · exact ⟨a, by simp [findRow, ha]⟩
    · have hmem : p ∈ l := by
        rcases List.mem_cons.mp h with h1 | h1
        · exact absurd (h1 ▸ rfl) ha
        · exact h1
      obtain ⟨q, hq⟩ := ih hmem
      exact ⟨q, by simp [findRow, ha, hq]⟩

theorem pair_of_ok {r : WRes Unit} (h : r.2 = Except.ok ()) : r = (r.1, Except.ok ()) := by
  obtain ⟨a, b⟩ := r
  simp only at h
  rw [h]

theorem processBatch_cons_ok (ad : Adapters) (fps : String → FaultPlan) (p : Prompt)
    (ps : List Prompt) (st st' : WorkerState)
    (h : processPrompt ad (fps p.id) p st = (st', Except.ok ())) :
    processBatch ad fps (p :: ps) st = processBatch ad fps ps st' := by
  simp [processBatch, h]

theorem processPrompt_gen_error (ad : Adapters) (p : Prompt) (st : WorkerState) (e : String)
    (hg : ad.generate p.prompt_text p.codex_task_id = Except.error e) :
    (processPrompt ad allOk p st).2 = Except.ok () ∧
    ∀ i, statusOf i (processPrompt ad allOk p st).1.table =
      if i = p.id then (statusOf i st.table).map (fun _ => PromptStatus.failed)
      else statusOf i st.table := by
  have h2 : (processPrompt ad allOk p st).2 = Except.ok () := by
    simp [processPrompt, tryBody, catchBlock, wbind, recordEventStep, recordPromptEvent,
          markBuildingStep, markFailedStep, allOk, hg]
  have htab : (processPrompt ad allOk p st).1.table =
      markPromptFailed p.id e (st.clock + 1 + 1)
        (markPromptBuilding p.id none (st.clock + 1) st.table) := by
    simp [processPrompt, tryBody, catchBlock, wbind, recordEventStep, recordPromptEvent,
          markBuildingStep, markFailedStep, allOk, hg]
  refine ⟨h2, ?_⟩
  intro i
  rw [htab, statusOf_markPromptFailed, statusOf_markPromptBuilding]
  by_cases hip : i = p.id
  · simp only [hip, if_pos rfl]
    cases statusOf p.id st.table <;> simp
  · simp [hip]

theorem processPrompt_success (ad : Adapters) (p : Prompt) (st : WorkerState) (g : GenOut)
    (c : String)
    (hg : ad.generate p.prompt_text p.codex_task_id = Except.ok g)
    (hc : ad.compile g.jsx = Except.ok c) :
    (processPrompt ad allOk p st).2 = Except.ok () ∧
    ∀ i, statusOf i (processPrompt ad allOk p st).1.table =
      if i = p.id then (statusOf i st.table).map (fun _ => PromptStatus.ready)
      else statusOf i st.table := by
  by_cases hbr : p.codex_task_id = some g.threadId
  · rw [hbr] at hg
    have h2 : (processPrompt ad allOk p st).2 = Except.ok () := by
      simp [processPrompt, tryBody, catchBlock, wbind, recordEventStep, recordPromptEvent,
            markBuildingStep, saveResultStep, allOk, hg, hc, hbr]
    have htab : (processPrompt ad allOk p st).1.table =
        savePromptBuildResult p.id
          { jsxSource := g.jsx, compiledJs := c,
            previewSlug := p.preview_slug.getD (buildPreviewSlug p.id),
            sandboxConfig := buildSandboxConfig (st.clock + 1 + 1 + 1) }
          (st.clock + 1 + 1 + 1)
          (markPromptBuilding p.id none (st.clock + 1) st.table) := by
      simp [processPrompt, tryBody, catchBlock, wbind, recordEventStep, recordPromptEvent,
            markBuildingStep, saveResultStep, allOk, hg, hc, hbr]
    refine ⟨h2, ?_⟩
    intro i
    rw [htab, statusOf_savePromptBuildResult, statusOf_markPromptBuilding]
    by_cases hip : i = p.id
    · simp only [hip, if_pos rfl]
      cases statusOf p.id st.table <;> simp
    · simp [hip]
  · have h2 : (processPrompt ad allOk p st).2 = Except.ok () := by
      simp [processPrompt, tryBody, catchBlock, wbind, recordEventStep, recordPromptEvent,
            markBuildingStep, saveResultStep, allOk, hg, hc, hbr]
    have htab : (processPrompt ad allOk p st).1.table =
        savePromptBuildResult p.id
          { jsxSource := g.jsx, compiledJs := c,
            previewSlug := p.preview_slug.getD (buildPreviewSlug p.id),
            sandboxConfig := buildSandboxConfig (st.clock + 1 + 1 + 1 + 1) }
          (st.clock + 1 + 1 + 1 + 1)
          (markPromptBuilding p.id (some g.threadId) (st.clock + 1 + 1)
            (markPromptBuilding p.id none (st.clock + 1) st.table)) := by
      simp [processPrompt, tryBody, catchBlock, wbind, recordEventStep, recordPromptEvent,
            markBuildingStep, saveResultStep, allOk, hg, hc, hbr]
    refine ⟨h2, ?_⟩
    intro i
    rw [htab, statusOf_savePromptBuildResult, statusOf_markPromptBuilding,
        statusOf_markPromptBuilding]
    by_cases hip : i = p.id
    · simp only [hip, if_pos rfl]
      cases statusOf p.id st.table <;> simp
    · simp [hip]

/-- C3 counterexample: when the initial event append of a transition fails,
the error propagates out of processPrompt and the transition is aborted with
the store untouched — the append failure is not swallowed at the point of
logging. -/
theorem event_failure_aborts_transition_counterexample :
    (processPrompt demoAdapters eventFailPlan basePrompt demoState).2 =
      Except.error "prompt_events insert failed" ∧
    (processPrompt demoAdapters eventFailPlan basePrompt demoState).1 = demoState := by
  decide

/-- C3 amended: recordPromptEvent performs a bare insert with no error
handling, so a failure of the event append made before the try-block
propagates out of the per-prompt transition unchanged, aborting it before any
build work. -/
theorem event_append_failure_propagates :
    ∀ (ad : Adapters) (fp : FaultPlan) (p : Prompt) (st : WorkerState),
    fp.eventProcessingOk = false →
    processPrompt ad fp p st = (st, Except.error "prompt_events insert failed") := by
  intro ad fp p st h
  simp [processPrompt, recordEventStep, recordPromptEvent, h, wbind]

/-- C3 amended witness: the propagation evaluated on concrete inputs. -/
theorem event_append_failure_propagates_witness :
    processPrompt demoAdapters eventFailPlan basePrompt demoState =
      (demoState, Except.error "prompt_events insert failed") :=
  event_append_failure_propagates demoAdapters eventFailPlan basePrompt demoState rfl

/-- C4 counterexample: with a store whose markPromptBuilding update throws for
the first prompt of a two-prompt batch, the tick does not end early — the
store error is converted into a failed status on the first prompt, the second
prompt is still processed to ready, and the tick returns normally. -/
theorem store_failure_swallowed_counterexample :
    (tick true okAdapters c4Faults 2 demoState).2 = Except.ok () ∧
    statusOf "p-1" (tick true okAdapters c4Faults 2 demoState).1.table =
      some PromptStatus.failed ∧
    statusOf "p-2" (tick true okAdapters c4Faults 2 demoState).1.table =
      some PromptStatus.ready := by
  decide

/-- C4 amended: a store failure inside the try-block of the per-prompt
transition is caught at the per-prompt boundary and converted into a failed
status like an adapter error (the batch continues); only a failure of the
catch-block's own failure-marking write (or of the pre-try event append)
propagates to the batch level. -/
theorem store_failure_swallowed_per_prompt :
    ∀ (ad : Adapters) (fp : FaultPlan) (p : Prompt) (st : WorkerState),
    fp.eventProcessingOk = true → fp.markBuildingOk = false →
    ((fp.markFailedOk = true → fp.eventFailedOk = true →
        (processPrompt ad fp p st).2 = Except.ok () ∧
        ∀ i, statusOf i (processPrompt ad fp p st).1.table =
          if i = p.id then (statusOf i st.table).map (fun _ => PromptStatus.failed)
          else statusOf i st.table) ∧
     (fp.markFailedOk = false →
        (processPrompt ad fp p st).2 =
          Except.error "update prompts set status failed failed")) := by
  intro ad fp p st hEv hMB
  constructor
  · intro hMF hEF
    have h2 : (processPrompt ad fp p st).2 = Except.ok () := by
      simp [processPrompt, tryBody, catchBlock, wbind, recordEventStep, recordPromptEvent,
            markBuildingStep, markFailedStep, hEv, hMB, hMF, hEF]
    have htab : (processPrompt ad fp p st).1.table =
        markPromptFailed p.id "update prompts set status building failed"
          (st.clock + 1) st.table := by
      simp [processPrompt, tryBody, catchBlock, wbind, recordEventStep, recordPromptEvent,
            markBuildingStep, markFailedStep, hEv, hMB, hMF, hEF]
    refine ⟨h2, ?_⟩
    intro i
    rw [htab, statusOf_markPromptFailed]
  · intro hMF
    simp [processPrompt, tryBody, catchBlock, wbind, recordEventStep, recordPromptEvent,
          markBuildingStep, markFailedStep, hEv, hMB, hMF]

/-- C4 amended witness: the converted failure evaluated on concrete inputs. -/
theorem store_failure_swallowed_per_prompt_witness :
    statusOf "p-1" (processPrompt okAdapters storeFailPlan basePrompt demoState).1.table =
      if "p-1" = basePrompt.id
      then (statusOf "p-1" demoState.table).map (fun _ => PromptStatus.failed)
      else statusOf "p-1" demoState.table :=
  ((store_failure_swallowed_per_prompt okAdapters storeFailPlan basePrompt demoState
    rfl rfl).1 rfl rfl).2 "p-1"

/-- C5: in a tick whose eligibility query returns two prompts, a thrown
generation error on the first prompt does not abort the batch: the second
prompt is still processed, and after the tick the first prompt is failed and
the second is ready. -/
theorem batch_isolation :
    ∀ (ad : Adapters) (st : WorkerState) (p1 p2 : Prompt) (e : String) (g : GenOut)
      (c : String) (n : Nat),
    findPromptsAwaitingBuild n st.table = [p1, p2] →
    ad.generate p1.prompt_text p1.codex_task_id = Except.error e →
    ad.generate p2.prompt_text p2.codex_task_id = Except.ok g →
    ad.compile g.jsx = Except.ok c →
    p1.id ≠ p2.id →
    (tick true ad (fun _ => allOk) n st).2 = Except.ok () ∧
    statusOf p1.id (tick true ad (fun _ => allOk) n st).1.table = some PromptStatus.failed ∧
    statusOf p2.id (tick true ad (fun _ => allOk) n st).1.table = some PromptStatus.ready := by
  intro ad st p1 p2 e g c n hfind hg1 hg2 hc hne
  have hm1 : p1 ∈ st.table := mem_table_of_eligible p1 n st.table (by rw [hfind]; simp)
  have hm2 : p2 ∈ st.table := mem_table_of_eligible p2 n st.table (by rw [hfind]; simp)
  obtain ⟨q1, hq1⟩ := findRow_exists_of_mem p1 st.table hm1
  obtain ⟨q2, hq2⟩ := findRow_exists_of_mem p2 st.table hm2
  obtain ⟨hA2, hAtab⟩ := processPrompt_gen_error ad p1 st e hg1
  obtain ⟨hB2, hBtab⟩ :=
    processPrompt_success ad p2 ((processPrompt ad allOk p1 st).1) g c hg2 hc
  have htick : tick true ad (fun _ => allOk) n st =
      processBatch ad (fun _ => allOk) [p1, p2] st := by
    simp [tick, hfind]
  have hstep1 : processBatch ad (fun _ => allOk) [p1, p2] st =
      processBatch ad (fun _ => allOk) [p2] ((processPrompt ad allOk p1 st).1) :=
    processBatch_cons_ok ad _ p1 [p2] st _ (pair_of_ok hA2)
  have hstep2 : processBatch ad (fun _ => allOk) [p2] ((processPrompt ad allOk p1 st).1) =
      processBatch ad (fun _ => allOk) []
        ((processPrompt ad allOk p2 ((processPrompt ad allOk p1 st).1)).1) :=
    processBatch_cons_ok ad _ p2 [] _ _ (pair_of_ok hB2)
  have hfinal : tick true ad (fun _ => allOk) n st =
      ((processPrompt ad allOk p2 ((processPrompt ad allOk p1 st).1)).1, Except.ok ()) := by
    rw [htick, hstep1, hstep2]
    rfl
  rw [hfinal]
  refine ⟨rfl, ?_, ?_⟩
  · show statusOf p1.id (processPrompt ad allOk p2 ((processPrompt ad allOk p1 st).1)).1.table = _
    rw [hBtab p1.id, if_neg hne, hAtab p1.id, if_pos rfl]
    unfold statusOf
    rw [hq1]
    simp
  · show statusOf p2.id (processPrompt ad allOk p2 ((processPrompt ad allOk p1 st).1)).1.table = _
    rw [hBtab p2.id, if_pos rfl, hAtab p2.id, if_neg (Ne.symm hne)]
    unfold statusOf
    rw [hq2]
    simp

/-- C5 witness: the two-prompt batch evaluated on concrete adapters and store. -/
theorem batch_isolation_witness :
    (tick true demoAdapters (fun _ => allOk) 2 demoState).2 = Except.ok () ∧
    statusOf basePrompt.id (tick true demoAdapters (fun _ => allOk) 2 demoState).1.table =
      some PromptStatus.failed ∧
    statusOf secondPrompt.id (tick true demoAdapters (fun _ => allOk) 2 demoState).1.table =
      some PromptStatus.ready :=
  batch_isolation demoAdapters demoState basePrompt secondPrompt "gen exploded"
    { threadId := "th-1", jsx := "const A = 1" } "compiled:const A = 1" 2
    (by decide) rfl rfl rfl (by decide)

/-- C6 counterexample: with generation succeeding (new handle th-9) and
compilation throwing, the prompt ends failed and the new handle is persisted,
but the generated source is not — jsx_source is still null after the
transition, so partial progress does not include the generated source. -/
theorem partial_progress_counterexample :
    statusOf "p-1" (processPrompt compileFailAdapters allOk basePrompt demoState).1.table =
      some PromptStatus.failed ∧
    (findRow "p-1" (processPrompt compileFailAdapters allOk basePrompt demoState).1.table).map
      Prompt.codex_task_id = some (some "th-9") ∧
    (findRow "p-1" (processPrompt compileFailAdapters allOk basePrompt demoState).1.table).map
      Prompt.jsx_source = some none := by
  decide

/-- C6 amended: when generation succeeds with a handle differing from the
stored one and compilation throws, the prompt ends failed with the new handle
persisted and the failure reason stored, but generatedSource is not persisted:
jsx_source keeps its prior value, since only savePromptBuildResult writes it. -/
theorem compile_failure_keeps_handle_not_source :
    ∀ (ad : Adapters) (p : Prompt) (st : WorkerState) (g : GenOut) (e : String) (q : Prompt),
    ad.generate p.prompt_text p.codex_task_id = Except.ok g →
    p.codex_task_id ≠ some g.threadId →
    g.threadId ≠ "" →
    ad.compile g.jsx = Except.error e →
    findRow p.id st.table = some q →
    (processPrompt ad allOk p st).2 = Except.ok () ∧
    ∃ q', findRow p.id (processPrompt ad allOk p st).1.table = some q' ∧
      q'.status = PromptStatus.failed ∧
      q'.codex_task_id = some g.threadId ∧
      q'.jsx_source = q.jsx_source ∧
      q'.render_error = some (takeStr e 2000) := by
  intro ad p st g e q hg hne htid hc hq
  have h2 : (processPrompt ad allOk p st).2 = Except.ok () := by
    simp [processPrompt, tryBody, catchBlock, wbind, recordEventStep, recordPromptEvent,
          markBuildingStep, markFailedStep, allOk, hg, hc, hne]
  have htab : (processPrompt ad allOk p st).1.table =
      markPromptFailed p.id e (st.clock + 1 + 1 + 1 + 1)
        (markPromptBuilding p.id (some g.threadId) (st.clock + 1 + 1)
          (markPromptBuilding p.id none (st.clock + 1) st.table)) := by
    simp [processPrompt, tryBody, catchBlock, wbind, recordEventStep, recordPromptEvent,
          markBuildingStep, markFailedStep, allOk, hg, hc, hne]
  refine ⟨h2, ?_⟩
  rw [htab, markPromptFailed, markPromptBuilding, markPromptBuilding]
  rw [findRow_updateWhere _ _ _ _ (fun r => id_markPromptFailedRow _ _ r), if_pos rfl]
  rw [findRow_updateWhere _ _ _ _ (fun r => id_markPromptBuildingRow _ _ r), if_pos rfl]
  rw [findRow_updateWhere _ _ _ _ (fun r => id_markPromptBuildingRow _ _ r), if_pos rfl]
  rw [hq]
  refine ⟨_, rfl, rfl, ?_, ?_, rfl⟩
  · rw [codex_task_id_markPromptFailedRow,
        codex_task_id_markPromptBuildingRow_some _ _ _ htid]
  · rw [jsx_source_markPromptFailedRow, jsx_source_markPromptBuildingRow,
        jsx_source_markPromptBuildingRow]

/-- C6 amended witness: the compile-failure outcome on concrete inputs. -/
theorem compile_failure_keeps_handle_not_source_witness :
    (processPrompt compileFailAdapters allOk basePrompt demoState).2 = Except.ok () :=
  (compile_failure_keeps_handle_not_source compileFailAdapters basePrompt demoState
    { threadId := "th-9", jsx := "const B = 2" } "babel exploded" basePrompt
    rfl (by decide) (by decide) rfl rfl).1

end RapidProto
